/-
Verification of the hollymarket-backend HTTP gateway.

Shallow embedding of the request-pipeline code (middleware, controllers,
upstream clients) as executable Lean definitions, followed by theorems
checking the specification's claims against them.

Sources embedded:
  - src/middleware/auth.middleware.ts        (authenticate, optionalAuth)
  - src/middleware/validation.middleware.ts  (validate, schemas.verifyOtp)
  - src/middleware/error.middleware.ts       (errorHandler, notFoundHandler)
  - src/controllers/markets.controller.ts    (MarketsController.getEvents)
  - src/services/polymarket-api.service.ts   (handleApiError, getEvents)
  - src/services/comments.service.ts         (response interceptor)
  - src/services/builder-signing.service.ts  (sign, getBuilderInfo)
  - src/types/index.ts                       (ApiError and subclasses)
-/

import Mathlib

set_option linter.unusedVariables false

/-! ## Shared JS-flavoured ground types -/

/-- A JavaScript dynamic value, restricted to the shapes this codebase
actually stores in error fields: strings and numbers. -/
inductive JsVal where
  | str (s : String)
  | num (n : Int)
  deriving Repr, DecidableEq

/-- JavaScript number as it flows through `parseInt`: either an integer or
`NaN`. -/
inductive JsNum where
  | int (n : Int)
  | nan
  deriving Repr, DecidableEq

/-- JS truthiness of a number: `0` and `NaN` are falsy. -/
def JsNum.truthy : JsNum → Bool
  | .int n => n ≠ 0
  | .nan => false

/-- JS truthiness of an optional string value (`undefined` and `""` are
falsy). -/
def jsStrTruthy : Option String → Bool
  | some s => s ≠ ""
  | none => false

/-- JS `a || b` for an optional string left operand: falls through on
`undefined` and on the empty string. -/
def jsOrStr (a : Option String) (b : String) : String :=
  match a with
  | some s => if s = "" then b else s
  | none => b

/-- JS `s.startsWith(p)`, computed on the character list so that concrete
instances reduce inside the kernel. -/
def jsStartsWith (s p : String) : Bool :=
  List.isPrefixOf p.toList s.toList

/-- JS `s.substring(n)`: drop the first `n` characters. -/
def jsSubstringFrom (s : String) (n : Nat) : String :=
  String.mk (s.toList.drop n)

/-- JS `s.length` (character count). -/
def jsLength (s : String) : Nat :=
  s.toList.length

/-- JS `parseInt(s, 10)`: skip leading whitespace, optional sign, then the
longest run of decimal digits; `NaN` when no digit is found. -/
def parseIntJs (s : String) : JsNum :=
  let t := s.toList.dropWhile (fun c => c.isWhitespace)
  let (neg, rest) :=
    match t with
    | '-' :: r => (true, r)
    | '+' :: r => (false, r)
    | r => (false, r)
  let digits := rest.takeWhile (fun c => c.isDigit)
  if digits.isEmpty then JsNum.nan
  else
    let v : Nat := digits.foldl (fun acc c => acc * 10 + (c.toNat - '0'.toNat)) 0
    JsNum.int (if neg then -(v : Int) else (v : Int))

/-! ## Error model (src/types/index.ts)

`ApiError` is a class whose constructor assigns its positional arguments to
the fields `statusCode`, `message`, `code`, `details`.  Well-typed call
sites produce `ApiError` below; the comments client's call site passes the
arguments in JS dynamic fashion and is modelled separately (`JsApiError`). -/

/-- One `{path, message}` entry of a validation failure's `details` list. -/
structure ZodIssue where
  path : String
  message : String
  deriving Repr, DecidableEq

/-- `ApiError(statusCode, message, code?, details?)` as constructed by the
well-typed call sites of the codebase. -/
structure ApiError where
  statusCode : Nat
  message : String
  code : Option String := none
  details : Option (List ZodIssue) := none
  deriving Repr, DecidableEq

/-- `ApiError` with its two leading fields kept at their JS dynamic type:
what actually lands in `statusCode` and `message` when a call site passes
arguments positionally without type checking. -/
structure JsApiError where
  statusCode : JsVal
  message : JsVal
  code : Option JsVal := none
  deriving Repr, DecidableEq

/-- A thrown JS error as seen by a `catch` block: either an
`AuthenticationError` (statusCode 401, code AUTHENTICATION_ERROR by its
constructor in src/types/index.ts) or any other error value. -/
inductive JsError where
  | authenticationError (message : String)
  | otherError (message : String)
  deriving Repr, DecidableEq

/-! ## Response envelope -/

/-- The `meta` block of the response envelope. -/
structure Meta where
  timestamp : String
  deriving Repr, DecidableEq

/-- The JSON body written by the error-emitting code paths:
`{success, error: {message, code, details?}, meta?}`.  Absent optional
fields are `none`. -/
structure Envelope where
  success : Bool
  errorMessage : String
  errorCode : Option String := none
  errorDetails : Option (List ZodIssue) := none
  meta : Option Meta := none
  deriving Repr, DecidableEq

/-- An HTTP response: status code plus JSON body. -/
structure HttpResponse where
  status : Nat
  body : Envelope
  deriving Repr, DecidableEq

/-! ## Supabase user and the auth provider call -/

/-- The identity resolved from a bearer token (the fields the gateway
reads). -/
structure User where
  id : String
  email : String
  deriving Repr, DecidableEq

/-- The behaviour of `authService.getUserFromToken` is an opaque upstream
call; the middleware is verified for every possible provider behaviour,
including throws of non-AuthenticationError values. -/
def Provider := String → Except JsError User

/-! ## Auth middleware (src/middleware/auth.middleware.ts) -/

/-- Outcome of running an auth middleware on one request: the response it
wrote (if any), whether it called `next()`, the identity it attached (if
any), and whether it invoked the auth provider. -/
structure AuthOutcome where
  response : Option HttpResponse
  nextCalled : Bool
  user : Option User
  providerCalled : Bool
  deriving Repr, DecidableEq

/-- Body written by `authenticate`'s catch block.  For an
`AuthenticationError` it echoes the error's message and code; for anything
else it writes the generic 401.  Neither branch writes a `meta` block. -/
def authenticateCatch (e : JsError) : HttpResponse :=
  match e with
  | .authenticationError m =>
      { status := 401
        body := { success := false, errorMessage := m,
                  errorCode := some "AUTHENTICATION_ERROR" } }
  | .otherError _ =>
      { status := 401
        body := { success := false, errorMessage := "Authentication failed",
                  errorCode := some "AUTHENTICATION_ERROR" } }

/-- `authenticate`: required-auth middleware.  Mirrors
src/middleware/auth.middleware.ts lines 6-50: missing header or wrong
scheme throws `AuthenticationError`, empty token throws
`AuthenticationError`, otherwise the provider is consulted; every throw is
handled by the catch block above. -/
def authenticate (authHeader : Option String) (getUserFromToken : Provider) :
    AuthOutcome :=
  match authHeader with
  | none =>
      { response := some (authenticateCatch
          (.authenticationError "Missing or invalid authorization header"))
        nextCalled := false, user := none, providerCalled := false }
  | some h =>
      if ¬ jsStartsWith h "Bearer " then
        { response := some (authenticateCatch
            (.authenticationError "Missing or invalid authorization header"))
          nextCalled := false, user := none, providerCalled := false }
      else
        let token := jsSubstringFrom h 7
        if token = "" then
          { response := some (authenticateCatch
              (.authenticationError "Missing access token"))
            nextCalled := false, user := none, providerCalled := false }
        else
          match getUserFromToken token with
          | .ok u =>
              { response := none, nextCalled := true, user := some u,
                providerCalled := true }
          | .error e =>
              { response := some (authenticateCatch e), nextCalled := false,
                user := none, providerCalled := true }

/-- `optionalAuth`: optional-auth middleware.  Mirrors
src/middleware/auth.middleware.ts lines 52-73: the resolution attempt runs
only for a well-formed header, and any throw is swallowed by the catch
block which just calls `next()`. -/
def optionalAuth (authHeader : Option String) (getUserFromToken : Provider) :
    AuthOutcome :=
  match authHeader with
  | none =>
      { response := none, nextCalled := true, user := none,
        providerCalled := false }
  | some h =>
      if ¬ jsStartsWith h "Bearer " then
        { response := none, nextCalled := true, user := none,
          providerCalled := false }
      else
        let token := jsSubstringFrom h 7
        if token = "" then
          { response := none, nextCalled := true, user := none,
            providerCalled := false }
        else
          match getUserFromToken token with
          | .ok u =>
              { response := none, nextCalled := true, user := some u,
                providerCalled := true }
          | .error _ =>
              { response := none, nextCalled := true, user := none,
                providerCalled := true }

/-! ## A protected route (src/routes/trading.routes.ts)

`router.get('/orders/:address', authenticate, handler)`: express invokes
the handler exactly when the middleware called `next()`; the handler makes
exactly one upstream-client call. -/

/-- Result of running a protected trading route end to end. -/
structure RouteOutcome where
  status : Nat
  handlerInvoked : Bool
  upstreamCalled : Bool
  deriving Repr, DecidableEq

/-- Run a required-auth route: `authenticate` first; the handler (whose
single job is one upstream call answered with `handlerStatus`) runs only if
the middleware called `next()`. -/
def runProtectedRoute (authHeader : Option String) (getUserFromToken : Provider)
    (handlerStatus : Nat) : RouteOutcome :=
  let out := authenticate authHeader getUserFromToken
  match out.response with
  | some r => { status := r.status, handlerInvoked := false, upstreamCalled := false }
  | none => { status := handlerStatus, handlerInvoked := true, upstreamCalled := true }

/-- A concrete provider used by closed witnesses. -/
def okProvider : Provider := fun _ => .ok { id := "u1", email := "a@b.com" }

/-! ## Claims C1, C9, C10 -/

/-- C1: on a required-auth route, a missing Authorization header, a header
not starting with `Bearer `, or an empty token yields a 401 response, the
handler is never invoked, the downstream upstream-client call never
happens, and the auth provider itself is never consulted. -/
theorem required_auth_rejects_malformed_header
    (authHeader : Option String) (p : Provider) (hs : Nat)
    (h : authHeader = none
         ∨ (∀ s, authHeader = some s → ¬ jsStartsWith s "Bearer ")
         ∨ (∀ s, authHeader = some s → jsSubstringFrom s 7 = "")) :
    (runProtectedRoute authHeader p hs).status = 401
    ∧ (runProtectedRoute authHeader p hs).handlerInvoked = false
    ∧ (runProtectedRoute authHeader p hs).upstreamCalled = false
    ∧ (authenticate authHeader p).providerCalled = false := by
  rcases authHeader with _ | s
  · simp [runProtectedRoute, authenticate, authenticateCatch]
  · rcases h with h | h | h
    · exact absurd h (by simp)
    · have hns := h s rfl
      simp [runProtectedRoute, authenticate, authenticateCatch, hns]
    · have ht := h s rfl
      by_cases hb : jsStartsWith s "Bearer "
      · simp [runProtectedRoute, authenticate, authenticateCatch, hb, ht]
      · simp [runProtectedRoute, authenticate, authenticateCatch, hb]

/-- Witness for C1 at the concrete header `Bearer ` (empty token). -/
theorem required_auth_rejects_malformed_header_witness :
    (runProtectedRoute (some "Bearer ") okProvider 200).status = 401
    ∧ (runProtectedRoute (some "Bearer ") okProvider 200).handlerInvoked = false
    ∧ (runProtectedRoute (some "Bearer ") okProvider 200).upstreamCalled = false
    ∧ (authenticate (some "Bearer ") okProvider).providerCalled = false :=
  required_auth_rejects_malformed_header (some "Bearer ") okProvider 200
    (Or.inr (Or.inr (fun s hsome => by cases hsome; decide)))

/-- C9: the optional-auth middleware never writes a response and always
continues the pipeline; whenever the identity-resolution attempt fails
(missing header, wrong scheme, empty token, or provider rejection) it
continues without an attached identity. -/
theorem optional_auth_never_rejects
    (authHeader : Option String) (p : Provider) :
    (optionalAuth authHeader p).response = none
    ∧ (optionalAuth authHeader p).nextCalled = true
    ∧ ((∀ u, (∀ s, authHeader = some s →
            ¬ (jsStartsWith s "Bearer " ∧ jsSubstringFrom s 7 ≠ ""
               ∧ p (jsSubstringFrom s 7) = .ok u))) →
        (optionalAuth authHeader p).user = none) := by
  rcases authHeader with _ | s
  · simp [optionalAuth]
  · by_cases hb : jsStartsWith s "Bearer "
    · by_cases ht : jsSubstringFrom s 7 = ""
      · simp [optionalAuth, hb, ht]
      · cases hp : p (jsSubstringFrom s 7) with
        | ok u =>
            refine ⟨?_, ?_, ?_⟩
            · simp [optionalAuth, hb, ht, hp]
            · simp [optionalAuth, hb, ht, hp]
            · intro hfail
              exact absurd ⟨hb, ht, hp⟩ (hfail u s rfl)
        | error e => simp [optionalAuth, hb, ht, hp]
    · simp [optionalAuth, hb]

/-- Witness for C9 at a concrete rejecting provider and malformed header. -/
theorem optional_auth_never_rejects_witness :
    (optionalAuth (some "Basic xyz") okProvider).response = none
    ∧ (optionalAuth (some "Basic xyz") okProvider).nextCalled = true
    ∧ (optionalAuth (some "Basic xyz") okProvider).user = none := by
  have h := optional_auth_never_rejects (some "Basic xyz") okProvider
  refine ⟨h.1, h.2.1, h.2.2 ?_⟩
  intro u s hsome hcontr
  cases hsome
  exact absurd hcontr.1 (by decide)

/-- C10: every response the required-auth middleware writes — distinct
AuthenticationError paths and unexpected non-AuthenticationError throws
alike — has status 401 and error code AUTHENTICATION_ERROR; the middleware
never produces a 5xx. -/
theorem authenticate_failures_are_401
    (authHeader : Option String) (p : Provider) (r : HttpResponse)
    (h : (authenticate authHeader p).response = some r) :
    r.status = 401 ∧ r.body.errorCode = some "AUTHENTICATION_ERROR" := by
  rcases authHeader with _ | s
  · simp [authenticate, authenticateCatch] at h
    subst h; exact ⟨rfl, rfl⟩
  · by_cases hb : jsStartsWith s "Bearer "
    · by_cases ht : jsSubstringFrom s 7 = ""
      · simp [authenticate, authenticateCatch, hb, ht] at h
        subst h; exact ⟨rfl, rfl⟩
      · cases hp : p (jsSubstringFrom s 7) with
        | ok u => simp [authenticate, hb, ht, hp] at h
        | error e =>
            simp [authenticate, hb, ht, hp] at h
            cases e with
            | authenticationError m => subst h; exact ⟨rfl, rfl⟩
            | otherError m => subst h; exact ⟨rfl, rfl⟩
    · simp [authenticate, authenticateCatch, hb] at h
      subst h; exact ⟨rfl, rfl⟩

/-- A provider that throws a non-AuthenticationError value (e.g. a network
fault inside the supabase client). -/
def faultyProvider : Provider := fun _ => .error (.otherError "ECONNRESET")

/-- The concrete response `authenticate` writes when the provider throws a
non-AuthenticationError value. -/
def authFaultResponse : HttpResponse :=
  authenticateCatch (.otherError "ECONNRESET")

/-- Witness for C10: a provider throwing a non-AuthenticationError still
yields 401 AUTHENTICATION_ERROR. -/
theorem authenticate_failures_are_401_witness :
    authFaultResponse.status = 401
    ∧ authFaultResponse.body.errorCode = some "AUTHENTICATION_ERROR" :=
  authenticate_failures_are_401 (some "Bearer tok") faultyProvider
    authFaultResponse (by decide)

/-! ## Validation middleware (src/middleware/validation.middleware.ts) -/

/-- Outcome of a `validate(schema)` middleware run. -/
structure ValidateOutcome where
  response : Option HttpResponse
  nextCalled : Bool
  deriving Repr, DecidableEq

/-- `validate(schema)` given the list of zod issues the schema produced on
the request: empty list means `next()`, otherwise the 400 envelope with one
`{path, message}` entry per issue (and no `meta` block). -/
def validateWith (issues : List ZodIssue) : ValidateOutcome :=
  if issues.isEmpty then
    { response := none, nextCalled := true }
  else
    { response := some
        { status := 400
          body := { success := false, errorMessage := "Validation failed",
                    errorCode := some "VALIDATION_ERROR",
                    errorDetails := some issues } }
      nextCalled := false }

/-- The body of a `POST /auth/verify` request with both fields present as
strings (the shapes the claim ranges over). -/
structure VerifyOtpBody where
  email : String
  token : String
  deriving Repr, DecidableEq

/-- Issues produced by the zod schema `schemas.verifyOtp` on a present-string
body: `email` must satisfy zod's email format (an external check, passed in
as `isEmail`), `token` must have at least 6 characters; zod reports object
issues in shape-key order (email before token) with the schema's custom
messages and dotted paths. -/
def verifyOtpIssues (isEmail : String → Bool) (b : VerifyOtpBody) : List ZodIssue :=
  (if isEmail b.email then []
   else [{ path := "body.email", message := "Invalid email address" }])
  ++ (if jsLength b.token < 6 then
        [{ path := "body.token", message := "Token must be at least 6 characters" }]
      else [])

/-- The `validate(schemas.verifyOtp)` middleware on a present-string body. -/
def validateVerifyOtp (isEmail : String → Bool) (b : VerifyOtpBody) :
    ValidateOutcome :=
  validateWith (verifyOtpIssues isEmail b)

/-! ## Claim C6 -/

/-- C6: a `/auth/verify` body with a non-email `email` or a token shorter
than 6 characters is rejected with status 400, the handler is not invoked,
and `details` lists exactly one `{path, message}` entry per invalid field,
email entry first. -/
theorem verify_otp_validation (isEmail : String → Bool) (b : VerifyOtpBody)
    (h : isEmail b.email = false ∨ jsLength b.token < 6) :
    (validateVerifyOtp isEmail b).nextCalled = false
    ∧ (validateVerifyOtp isEmail b).response = some
        { status := 400
          body := { success := false, errorMessage := "Validation failed",
                    errorCode := some "VALIDATION_ERROR",
                    errorDetails := some (verifyOtpIssues isEmail b) } }
    ∧ (verifyOtpIssues isEmail b).length
        = (if isEmail b.email then 0 else 1)
          + (if jsLength b.token < 6 then 1 else 0)
    ∧ (({ path := "body.email", message := "Invalid email address" } : ZodIssue)
         ∈ verifyOtpIssues isEmail b ↔ isEmail b.email = false)
    ∧ (({ path := "body.token", message := "Token must be at least 6 characters" } : ZodIssue)
         ∈ verifyOtpIssues isEmail b ↔ jsLength b.token < 6)
    ∧ (isEmail b.email = false → jsLength b.token < 6 →
        verifyOtpIssues isEmail b
          = [{ path := "body.email", message := "Invalid email address" },
             { path := "body.token", message := "Token must be at least 6 characters" }]) := by
  by_cases he : isEmail b.email
  · by_cases ht : jsLength b.token < 6
    · simp [validateVerifyOtp, validateWith, verifyOtpIssues, he, ht]
    · rcases h with h | h
      · rw [he] at h; exact absurd h (by simp)
      · exact absurd h ht
  · by_cases ht : jsLength b.token < 6
    · simp [validateVerifyOtp, validateWith, verifyOtpIssues, he, ht]
    · simp [validateVerifyOtp, validateWith, verifyOtpIssues, he, ht]

/-- Witness for C6: email not an email and token of length 3 give a 400
with two details entries. -/
theorem verify_otp_validation_witness :
    (validateVerifyOtp (fun s => s = "a@b.com") { email := "nope", token := "123" }).nextCalled
      = false
    ∧ (verifyOtpIssues (fun s => s = "a@b.com") { email := "nope", token := "123" }).length
        = (if (fun s : String => s = "a@b.com") "nope" then 0 else 1)
          + (if jsLength "123" < 6 then 1 else 0) := by
  have h := verify_otp_validation (fun s => decide (s = "a@b.com"))
    { email := "nope", token := "123" } (Or.inl (by decide))
  exact ⟨h.1, by simpa using h.2.2.1⟩

/-! ## Error middleware (src/middleware/error.middleware.ts) and the
response formatter -/

/-- `errorHandler`, `ApiError` branch: echo status/message/code (and
details when truthy) and attach a `meta.timestamp` block. -/
def errorHandler (e : ApiError) (now : String) : HttpResponse :=
  { status := e.statusCode
    body := { success := false, errorMessage := e.message, errorCode := e.code,
              errorDetails := e.details, meta := some { timestamp := now } } }

/-- `errorHandler`, non-`ApiError` branch: generic 500; the real message
only outside production (the `stack` field of the development body is not
modelled). -/
def errorHandlerGeneric (isDevelopment : Bool) (errMessage : String)
    (now : String) : HttpResponse :=
  { status := 500
    body := { success := false
              errorMessage := if isDevelopment then errMessage
                              else "Internal server error"
              errorCode := some "INTERNAL_SERVER_ERROR"
              meta := some { timestamp := now } } }

/-- `notFoundHandler`: 404 envelope for unmatched routes. -/
def notFoundHandler (method path : String) (now : String) : HttpResponse :=
  { status := 404
    body := { success := false
              errorMessage := "Route " ++ method ++ " " ++ path ++ " not found"
              errorCode := some "NOT_FOUND"
              meta := some { timestamp := now } } }

/-- Modelled from the spec: `ResponseBuilder.error` of src/utils/response.ts
— the file is absent from the snapshot (only callers such as the
controllers exist).  Per §4.2, `error(message, statusCode, code, details?)`
returns the `{success:false, error:..., meta:{timestamp}}` envelope with
HTTP status `statusCode`. -/
def responseBuilderError (message : String) (statusCode : Nat)
    (code : Option String) (details : Option (List ZodIssue))
    (now : String) : HttpResponse :=
  { status := statusCode
    body := { success := false, errorMessage := message, errorCode := code,
              errorDetails := details, meta := some { timestamp := now } } }

/-- Helper: every response `authenticate` writes is built by its catch
block. -/
theorem authenticate_response_isCatch (h : Option String) (p : Provider)
    (r : HttpResponse) (hr : (authenticate h p).response = some r) :
    ∃ e, r = authenticateCatch e := by
  rcases h with _ | s
  · simp [authenticate] at hr
    exact ⟨_, hr.symm⟩
  · by_cases hb : jsStartsWith s "Bearer "
    · by_cases ht : jsSubstringFrom s 7 = ""
      · simp [authenticate, hb, ht] at hr
        exact ⟨_, hr.symm⟩
      · cases hp : p (jsSubstringFrom s 7) with
        | ok u => simp [authenticate, hb, ht, hp] at hr
        | error e =>
            simp [authenticate, hb, ht, hp] at hr
            exact ⟨e, hr.symm⟩
    · simp [authenticate, hb] at hr
      exact ⟨_, hr.symm⟩

/-- Helper: the catch block of `authenticate` never writes a `meta` block. -/
theorem authenticateCatch_meta (e : JsError) :
    (authenticateCatch e).body.meta = none := by
  cases e <;> rfl

/-! ## Claim C3 -/

/-- C3 counterexample: the 401 envelope written by `authenticate` for a
missing Authorization header, and the 400 envelope written by `validate`,
both lack the `meta` block (hence `meta.timestamp`) the claim requires of
every error response. -/
theorem error_envelope_timestamp_counterexample :
    ((authenticate none okProvider).response.map (fun r => r.body.meta))
      = some none
    ∧ ((validateVerifyOtp (fun _ => false)
          { email := "x", token := "123" }).response.map (fun r => r.body.meta))
      = some none := by
  constructor
  · rfl
  · rfl

/-- C3 amended: responses of the terminal error middleware, the not-found
handler, and the formatter's `error` helper carry `meta.timestamp`, but the
401 envelopes of `authenticate` and the 400 envelopes of `validate` are
written without any `meta` block. -/
theorem error_envelope_timestamp_amended
    (e : ApiError) (dev : Bool) (em m pth now : String)
    (code : Option String) (sc : Nat) (details : Option (List ZodIssue))
    (hd : Option String) (p : Provider) (issues : List ZodIssue)
    (r r2 : HttpResponse)
    (hr : (authenticate hd p).response = some r)
    (hr2 : (validateWith issues).response = some r2) :
    (errorHandler e now).body.meta = some { timestamp := now }
    ∧ (errorHandlerGeneric dev em now).body.meta = some { timestamp := now }
    ∧ (notFoundHandler m pth now).body.meta = some { timestamp := now }
    ∧ (responseBuilderError em sc code details now).body.meta
        = some { timestamp := now }
    ∧ r.body.meta = none
    ∧ r2.body.meta = none := by
  obtain ⟨ej, hej⟩ := authenticate_response_isCatch hd p r hr
  refine ⟨rfl, rfl, rfl, rfl, hej ▸ authenticateCatch_meta ej, ?_⟩
  by_cases hi : issues.isEmpty
  · simp [validateWith, hi] at hr2
  · simp [validateWith, hi] at hr2
    rw [← hr2]

/-- Witness for C3 amended, at concrete inputs for every hypothesis. -/
theorem error_envelope_timestamp_amended_witness :
    (errorHandler { statusCode := 404, message := "nf" } "t").body.meta
      = some { timestamp := "t" }
    ∧ (errorHandlerGeneric true "boom" "t").body.meta = some { timestamp := "t" }
    ∧ (notFoundHandler "GET" "/unknown" "t").body.meta = some { timestamp := "t" }
    ∧ (responseBuilderError "bad" 400 (some "VALIDATION_ERROR") none "t").body.meta
        = some { timestamp := "t" }
    ∧ (authenticateCatch
        (.authenticationError "Missing or invalid authorization header")).body.meta
        = none
    ∧ (HttpResponse.mk 400
        { success := false, errorMessage := "Validation failed",
          errorCode := some "VALIDATION_ERROR",
          errorDetails := some [{ path := "q", message := "bad" }] }).body.meta
        = none :=
  error_envelope_timestamp_amended
    { statusCode := 404, message := "nf" } true "boom" "GET" "/unknown" "t"
    (some "VALIDATION_ERROR") 400 none none okProvider
    [{ path := "q", message := "bad" }] _ _ (by rfl) (by rfl)

/-! ## Markets pipeline (src/controllers/markets.controller.ts and
src/services/polymarket-api.service.ts, `getEvents`) -/

/-- The query-string fields of `GET /markets/events` as express delivers
them: each is the raw string when supplied, `none` when absent. -/
structure RawEventsQuery where
  limit : Option String := none
  offset : Option String := none
  active : Option String := none
  closed : Option String := none
  archived : Option String := none
  tag_id : Option String := none
  ascending : Option String := none
  deriving Repr, DecidableEq

/-- `v === 'true' ? true : v === 'false' ? false : undefined`. -/
def parseBoolFlag (v : Option String) : Option Bool :=
  if v = some "true" then some true
  else if v = some "false" then some false
  else none

/-- The params object built by `MarketsController.getEvents`:
`limit ? parseInt(limit, 10) : 50`, `offset ? parseInt(offset, 10) : 0`,
tri-state boolean flags, `tag` passed through from `tag_id`. -/
structure GetEventsParams where
  limit : JsNum
  offset : JsNum
  active : Option Bool
  closed : Option Bool
  archived : Option Bool
  ascending : Option Bool
  tag : Option String
  deriving Repr, DecidableEq

/-- `MarketsController.getEvents` parameter shaping
(src/controllers/markets.controller.ts lines 6-19). -/
def getEventsControllerParams (q : RawEventsQuery) : GetEventsParams :=
  { limit := if jsStrTruthy q.limit then parseIntJs (q.limit.getD "") else .int 50
    offset := if jsStrTruthy q.offset then parseIntJs (q.offset.getD "") else .int 0
    active := parseBoolFlag q.active
    closed := parseBoolFlag q.closed
    archived := parseBoolFlag q.archived
    ascending := parseBoolFlag q.ascending
    tag := q.tag_id }

/-- The query params `PolymarketApiService.getEvents` actually sends to the
upstream `/events` call; a `none` field is absent from the request. -/
structure UpstreamEventsQuery where
  limit : Option JsNum := none
  offset : Option JsNum := none
  active : Option Bool := none
  closed : Option Bool := none
  archived : Option Bool := none
  tag_id : Option String := none
  deriving Repr, DecidableEq

/-- `PolymarketApiService.getEvents` query assembly (part_002 lines 80-92):
`if (params?.limit) queryParams.limit = params.limit` and so on —
truthiness checks for `limit`, `offset` and `tag`, undefined checks for the
boolean flags. -/
def polymarketGetEventsQuery (params : GetEventsParams) : UpstreamEventsQuery :=
  { limit := if params.limit.truthy then some params.limit else none
    offset := if params.offset.truthy then some params.offset else none
    active := params.active
    closed := params.closed
    archived := params.archived
    tag_id := if jsStrTruthy params.tag then params.tag else none }

/-- The full controller-to-client pipeline for `GET /markets/events`. -/
def marketsGetEventsUpstream (q : RawEventsQuery) : UpstreamEventsQuery :=
  polymarketGetEventsQuery (getEventsControllerParams q)

/-! ## Claim C2 -/

/-- C2 counterexample: for `GET /markets/events?limit=0` the upstream
`/events` call does not receive `limit=0` — the `limit` key is absent from
the upstream query altogether. -/
theorem limit_zero_passthrough_counterexample :
    (marketsGetEventsUpstream { limit := some "0" }).limit ≠ some (JsNum.int 0)
    ∧ (marketsGetEventsUpstream { limit := some "0" }).limit = none := by
  constructor
  · decide
  · decide

/-- C2 amended: the controller parses `limit=0` to the number 0 without
substituting its default of 50 (the string "0" is truthy), but the
client's truthiness filter then drops `limit=0`, so the upstream call
carries no limit parameter; in general any params with numeric limit 0 are
sent upstream without a limit key. -/
theorem limit_zero_dropped_amended :
    (getEventsControllerParams { limit := some "0" }).limit = JsNum.int 0
    ∧ (marketsGetEventsUpstream { limit := some "0" }).limit = none
    ∧ ∀ params : GetEventsParams, params.limit = JsNum.int 0 →
        (polymarketGetEventsQuery params).limit = none := by
  refine ⟨by decide, by decide, ?_⟩
  intro params hp
  simp [polymarketGetEventsQuery, hp, JsNum.truthy]

/-- Witness for C2 amended at concrete controller params with limit 0. -/
theorem limit_zero_dropped_amended_witness :
    (polymarketGetEventsQuery
        { limit := JsNum.int 0, offset := JsNum.int 0, active := none,
          closed := none, archived := none, ascending := none,
          tag := none }).limit = none :=
  limit_zero_dropped_amended.2.2
    { limit := JsNum.int 0, offset := JsNum.int 0, active := none,
      closed := none, archived := none, ascending := none, tag := none }
    rfl

/-! ## Market-data client error mapping (part_002, `handleApiError`) -/

/-- An axios failure as the response interceptor sees it: either an
upstream HTTP response (status plus optional `data.message`, and the
axios error's own `message`), or no response at all (connection-level
failure with an optional `code` such as ECONNABORTED). -/
inductive AxiosFailure where
  | response (status : Nat) (dataMessage : Option String) (errMessage : String)
  | noResponse (code : Option String) (errMessage : String)
  deriving Repr, DecidableEq

/-- `PolymarketApiService.handleApiError` (part_002 lines 54-78): switch on
the upstream status with a generic POLYMARKET_API_ERROR default, then the
timeout and unreachable cases. -/
def handleApiError (e : AxiosFailure) : ApiError :=
  match e with
  | .response status dataMessage errMessage =>
      let message := jsOrStr dataMessage errMessage
      if status = 400 then
        { statusCode := 400, message := message, code := some "BAD_REQUEST" }
      else if status = 404 then
        { statusCode := 404, message := "Resource not found",
          code := some "NOT_FOUND" }
      else if status = 429 then
        { statusCode := 429, message := "Polymarket API rate limit exceeded",
          code := some "RATE_LIMIT_EXCEEDED" }
      else if status = 500 then
        { statusCode := 500, message := "Polymarket API server error",
          code := some "SERVER_ERROR" }
      else
        { statusCode := status, message := message,
          code := some "POLYMARKET_API_ERROR" }
  | .noResponse code _ =>
      if code = some "ECONNABORTED" then
        { statusCode := 504, message := "Polymarket API request timeout",
          code := some "TIMEOUT" }
      else
        { statusCode := 503, message := "Polymarket API service unavailable",
          code := some "SERVICE_UNAVAILABLE" }

/-! ## Claim C4 -/

/-- C4 counterexample: an upstream 401 is not mapped to an
Unauthorized-kind error: it falls into the generic default with code
POLYMARKET_API_ERROR (the codebase's Unauthorized representations are the
CLOB client's UNAUTHORIZED and the AuthenticationError code
AUTHENTICATION_ERROR); likewise an upstream 503 keeps the generic code
rather than a ServerError/ServiceUnavailable one. -/
theorem upstream_error_taxonomy_counterexample :
    (handleApiError (.response 401 (some "bad key") "req failed")).code
      = some "POLYMARKET_API_ERROR"
    ∧ (handleApiError (.response 401 (some "bad key") "req failed")).code
        ≠ some "UNAUTHORIZED"
    ∧ (handleApiError (.response 401 (some "bad key") "req failed")).code
        ≠ some "AUTHENTICATION_ERROR"
    ∧ (handleApiError (.response 503 none "bad gateway")).code
        = some "POLYMARKET_API_ERROR"
    ∧ (handleApiError (.response 503 none "bad gateway")).code
        ≠ some "SERVER_ERROR"
    ∧ (handleApiError (.response 503 none "bad gateway")).code
        ≠ some "SERVICE_UNAVAILABLE" := by
  refine ⟨by decide, by decide, by decide, by decide, by decide, by decide⟩

/-- C4 amended: the market-data client maps 400→BAD_REQUEST,
404→NOT_FOUND, 429→RATE_LIMIT_EXCEEDED, 500→SERVER_ERROR, and every other
upstream status (including 401 and non-500 5xx) to the generic
POLYMARKET_API_ERROR; the upstream status code is always preserved;
connection timeouts yield 504 TIMEOUT and an unreachable upstream 503
SERVICE_UNAVAILABLE; in particular the scenario-4 response for an upstream
429 is a 429 envelope with code RATE_LIMIT_EXCEEDED. -/
theorem upstream_error_taxonomy_amended
    (status : Nat) (dm : Option String) (em em2 now : String)
    (c : Option String) (hc : c ≠ some "ECONNABORTED") :
    (handleApiError (.response status dm em)).statusCode = status
    ∧ (handleApiError (.response status dm em)).code
        = some (if status = 400 then "BAD_REQUEST"
                else if status = 404 then "NOT_FOUND"
                else if status = 429 then "RATE_LIMIT_EXCEEDED"
                else if status = 500 then "SERVER_ERROR"
                else "POLYMARKET_API_ERROR")
    ∧ handleApiError (.noResponse (some "ECONNABORTED") em2)
        = { statusCode := 504, message := "Polymarket API request timeout",
            code := some "TIMEOUT" }
    ∧ handleApiError (.noResponse c em2)
        = { statusCode := 503, message := "Polymarket API service unavailable",
            code := some "SERVICE_UNAVAILABLE" }
    ∧ (errorHandler (handleApiError (.response 429 dm em)) now).status = 429
    ∧ (errorHandler (handleApiError (.response 429 dm em)) now).body.errorCode
        = some "RATE_LIMIT_EXCEEDED" := by
  refine ⟨?_, ?_, rfl, ?_, ?_, ?_⟩
  · simp only [handleApiError]
    split_ifs with h1 h2 h3 h4 <;> simp_all
  · simp only [handleApiError]
    split_ifs <;> rfl
  · simp [handleApiError, hc]
  · simp [handleApiError, errorHandler]
  · simp [handleApiError, errorHandler]

/-- Witness for C4 amended at a concrete non-timeout connection failure. -/
theorem upstream_error_taxonomy_amended_witness :
    (handleApiError (.response 502 none "bad gateway")).statusCode = 502
    ∧ (handleApiError (.response 502 none "bad gateway")).code
        = some (if (502 : Nat) = 400 then "BAD_REQUEST"
                else if (502 : Nat) = 404 then "NOT_FOUND"
                else if (502 : Nat) = 429 then "RATE_LIMIT_EXCEEDED"
                else if (502 : Nat) = 500 then "SERVER_ERROR"
                else "POLYMARKET_API_ERROR")
    ∧ handleApiError (.noResponse (some "ECONNABORTED") "timeout")
        = { statusCode := 504, message := "Polymarket API request timeout",
            code := some "TIMEOUT" }
    ∧ handleApiError (.noResponse (some "ECONNREFUSED") "timeout")
        = { statusCode := 503, message := "Polymarket API service unavailable",
            code := some "SERVICE_UNAVAILABLE" }
    ∧ (errorHandler (handleApiError (.response 429 none "too many")) "t").status = 429
    ∧ (errorHandler (handleApiError (.response 429 none "too many")) "t").body.errorCode
        = some "RATE_LIMIT_EXCEEDED" :=
  upstream_error_taxonomy_amended 502 none "bad gateway" "timeout" "t"
    (some "ECONNREFUSED") (by decide)

/-! ## Comments client (src/services/comments.service.ts) -/

/-- The comments-service response interceptor constructs
`new ApiError(error.response?.data?.message || 'Failed to fetch comments
from Polymarket', error.response?.status || 500)`.  `ApiError`'s declared
constructor is `(statusCode: number, message: string, ...)`, so the first
argument — the message string — lands in the `statusCode` field and the
second — the status number — in `message`; the fields keep their JS
dynamic values. -/
def commentsInterceptorError (status : Option Nat) (dataMessage : Option String) :
    JsApiError :=
  { statusCode := .str (jsOrStr dataMessage "Failed to fetch comments from Polymarket")
    message := .num (match status with
                     | some s => if s = 0 then 500 else (s : Int)
                     | none => 500) }

/-! ## Claim C5 -/

/-- C5: the comments client is supposed to raise an error whose HTTP
status equals the upstream status and whose message is the upstream
message; evaluating the constructor call at an upstream 429 with message
"slow down" shows the two arguments are swapped: the `statusCode` field
holds the message string and the `message` field holds the number 429. -/
theorem comments_error_swaps_status_and_message :
    commentsInterceptorError (some 429) (some "slow down")
      = { statusCode := JsVal.str "slow down", message := JsVal.num 429 }
    ∧ (commentsInterceptorError (some 429) (some "slow down")).statusCode
        ≠ JsVal.num 429
    ∧ (commentsInterceptorError (some 429) (some "slow down")).message
        ≠ JsVal.str "slow down"
    ∧ (commentsInterceptorError none none).statusCode
        ≠ JsVal.num 500 := by
  refine ⟨by decide, by decide, by decide, by decide⟩

/-! ## Builder signing (src/services/builder-signing.service.ts,
src/controllers/wallet.controller.ts, src/routes/wallet.routes.ts) -/

/-- `POST /polymarket/sign` request body; any field may be absent. -/
structure SigningRequest where
  method : Option String := none
  path : Option String := none
  body : Option String := none
  deriving Repr, DecidableEq

/-- The signature-header object `BuilderSigningService.sign` returns. -/
structure SigningResponse where
  POLY_BUILDER_API_KEY : String
  POLY_BUILDER_SIGNATURE : String
  POLY_BUILDER_TIMESTAMP : Int
  POLY_BUILDER_PASSPHRASE : String
  deriving Repr, DecidableEq

/-- The configured builder credentials (config.polymarket.builder). -/
structure BuilderConfig where
  apiKey : String
  secret : String
  passphrase : String
  deriving Repr, DecidableEq

/-- The `validMethods` list of `BuilderSigningService.sign`. -/
def validMethods : List String := ["GET", "POST", "DELETE", "PUT", "PATCH"]

/-- JS `s.toUpperCase()` on the character list. -/
def jsToUpper (s : String) : String :=
  String.mk (s.toList.map Char.toUpper)

/-- `BuilderSigningService.sign` (lines 36-77).  `hmac` is the external
`buildHmacSignature` black box of `@polymarket/builder-signing-sdk`,
applied to (secret, timestamp, method, path, body); it is modelled as a
total function, so the catch-all `ApiError(500)` branch guarding a throwing
SDK is unreachable in the model.  Validation failures are raised before
`hmac` is ever applied. -/
def builderSign (cfg : BuilderConfig)
    (hmac : String → Int → String → String → String → String)
    (timestamp : Int) (r : SigningRequest) : Except ApiError SigningResponse :=
  if ¬ (jsStrTruthy r.method ∧ jsStrTruthy r.path) then
    .error { statusCode := 400, message := "Missing required fields: method and path" }
  else if ¬ validMethods.contains (jsToUpper (r.method.getD "")) then
    .error { statusCode := 400,
             message := "Invalid HTTP method: " ++ r.method.getD "" }
  else
    .ok { POLY_BUILDER_API_KEY := cfg.apiKey
          POLY_BUILDER_SIGNATURE :=
            hmac cfg.secret timestamp (jsToUpper (r.method.getD ""))
              (r.path.getD "") (r.body.getD "")
          POLY_BUILDER_TIMESTAMP := timestamp
          POLY_BUILDER_PASSPHRASE := cfg.passphrase }

/-- `BuilderSigningService.getBuilderInfo` (lines 116-123): the API key in
the clear plus presence booleans for secret and passphrase. -/
structure BuilderInfo where
  apiKey : String
  hasSecret : Bool
  hasPassphrase : Bool
  configured : Bool
  deriving Repr, DecidableEq

/-- `getBuilderInfo` over the configured credentials (`!!` coercions). -/
def getBuilderInfo (cfg : BuilderConfig) : BuilderInfo :=
  { apiKey := cfg.apiKey
    hasSecret := cfg.secret ≠ ""
    hasPassphrase := cfg.passphrase ≠ ""
    configured := cfg.apiKey ≠ "" ∧ cfg.secret ≠ "" ∧ cfg.passphrase ≠ "" }

/-- `BuilderSigningService.validateRequest` (lines 84-110), called by the
wallet controller before `sign`; `jsonValid` stands for `JSON.parse`
succeeding on the body text. -/
def validateRequest (jsonValid : String → Bool) (r : SigningRequest) :
    Except ApiError Unit :=
  if ¬ jsStrTruthy r.method then
    .error { statusCode := 400, message := "Invalid or missing method" }
  else if ¬ (jsStrTruthy r.path ∧ jsStartsWith (r.path.getD "") "/") then
    .error { statusCode := 400,
             message := "Invalid or missing path. Path must start with /" }
  else if jsStrTruthy r.body ∧ ¬ jsonValid (r.body.getD "") then
    .error { statusCode := 400, message := "Body must be valid JSON" }
  else
    .ok ()

/-- Modelled from the spec: `schemas.signRequest` of
src/middleware/validation.middleware.ts.  The schema is referenced by
src/routes/wallet.routes.ts but missing from the snapshot's
validation.middleware.ts (the repository's implementation-summary document
records it at lines 117-128 of that file).  Per §4.5 and that document it
validates that `method` is one of GET/POST/DELETE/PUT/PATCH, that `path`
starts with `/`, and that `body`, when present, is valid JSON text;
issues are listed in shape-key order. -/
def signRequestIssues (jsonValid : String → Bool) (r : SigningRequest) :
    List ZodIssue :=
  (match r.method with
   | some m => if validMethods.contains m then []
               else [{ path := "body.method", message := "Invalid enum value" }]
   | none => [{ path := "body.method", message := "Required" }])
  ++ (match r.path with
      | some p => if jsStartsWith p "/" then []
                  else [{ path := "body.path", message := "Path must start with /" }]
      | none => [{ path := "body.path", message := "Required" }])
  ++ (match r.body with
      | some b => if jsonValid b then []
                  else [{ path := "body.body", message := "Body must be valid JSON" }]
      | none => [])

/-- End-to-end outcome of `POST /polymarket/sign`. -/
structure SignRouteOutcome where
  status : Nat
  errorCode : Option String
  hmacCalled : Bool
  deriving Repr, DecidableEq

/-- The `/sign` pipeline of src/routes/wallet.routes.ts:
`optionalAuth` (which never blocks), then `validate(schemas.signRequest)`,
then `walletController.sign`, which runs `validateRequest` and
`builderSign`; a thrown `ApiError` reaches the terminal error middleware.
The external HMAC is applied exactly when `builderSign` succeeds. -/
def signRoute (jsonValid : String → Bool) (cfg : BuilderConfig)
    (hmac : String → Int → String → String → String → String)
    (timestamp : Int) (now : String) (r : SigningRequest) : SignRouteOutcome :=
  match (validateWith (signRequestIssues jsonValid r)).response with
  | some resp =>
      { status := resp.status, errorCode := resp.body.errorCode,
        hmacCalled := false }
  | none =>
      match validateRequest jsonValid r with
      | .error e =>
          { status := (errorHandler e now).status
            errorCode := (errorHandler e now).body.errorCode
            hmacCalled := false }
      | .ok _ =>
          match builderSign cfg hmac timestamp r with
          | .error e =>
              { status := (errorHandler e now).status
                errorCode := (errorHandler e now).body.errorCode
                hmacCalled := false }
          | .ok _ =>
              { status := 200, errorCode := none, hmacCalled := true }

/-! ## Claim C7 -/

/-- C7: a `/polymarket/sign` request whose method is outside
GET/POST/DELETE/PUT/PATCH (e.g. `{"method":"FOO","path":"/x"}`) is
rejected with status 400 and error code VALIDATION_ERROR, and the external
HMAC-construction function is never applied. -/
theorem sign_route_rejects_bad_method
    (jsonValid : String → Bool) (cfg : BuilderConfig)
    (hmac : String → Int → String → String → String → String)
    (timestamp : Int) (now : String) (m : String)
    (hm : validMethods.contains m = false) :
    signRoute jsonValid cfg hmac timestamp now
        { method := some m, path := some "/x" }
      = { status := 400, errorCode := some "VALIDATION_ERROR",
          hmacCalled := false } := by
  have hm' : ¬ m ∈ validMethods := by simpa using hm
  have hp : jsStartsWith "/x" "/" = true := by decide
  simp [signRoute, validateWith, signRequestIssues, hm', hp]

/-- Witness for C7 at the concrete body of end-to-end scenario 3. -/
theorem sign_route_rejects_bad_method_witness :
    signRoute (fun _ => true) { apiKey := "k", secret := "s", passphrase := "p" }
        (fun _ _ _ _ _ => "sig") 0 "t" { method := some "FOO", path := some "/x" }
      = { status := 400, errorCode := some "VALIDATION_ERROR",
          hmacCalled := false } :=
  sign_route_rejects_bad_method (fun _ => true)
    { apiKey := "k", secret := "s", passphrase := "p" }
    (fun _ _ _ _ _ => "sig") 0 "t" "FOO" (by decide)

/-! ## Claim C8 -/

/-- C8 counterexample: the successful signing response contains the
configured passphrase in plaintext — its POLY_BUILDER_PASSPHRASE field is
exactly the configured passphrase, contradicting the claim that no
response contains the passphrase. -/
theorem signing_response_contains_passphrase :
    builderSign { apiKey := "k", secret := "s", passphrase := "p" }
        (fun _ _ _ _ _ => "sig") 0 { method := some "GET", path := some "/x" }
      = .ok { POLY_BUILDER_API_KEY := "k", POLY_BUILDER_SIGNATURE := "sig",
              POLY_BUILDER_TIMESTAMP := 0, POLY_BUILDER_PASSPHRASE := "p" }
    ∧ ({ apiKey := "k", secret := "s", passphrase := "p" } : BuilderConfig).passphrase
        = "p" := by
  refine ⟨by rfl, rfl⟩

/-- C8 amended: the secret never appears in plaintext in either response —
if the external HMAC never emits the raw secret and the other credentials
differ from it, no field of the signing response equals the secret; the
builder-info response exposes only the API key and presence booleans, so
it contains neither the secret nor the passphrase; the signing response,
however, does include the configured passphrase (and API key) by design. -/
theorem signing_no_secret_leak
    (cfg : BuilderConfig)
    (hmac : String → Int → String → String → String → String)
    (timestamp : Int) (r : SigningRequest) (resp : SigningResponse)
    (hkey : cfg.apiKey ≠ cfg.secret)
    (hpass : cfg.passphrase ≠ cfg.secret)
    (hkeyp : cfg.apiKey ≠ cfg.passphrase)
    (hhmac : ∀ s t m p b, hmac s t m p b ≠ cfg.secret)
    (hok : builderSign cfg hmac timestamp r = .ok resp) :
    resp.POLY_BUILDER_API_KEY ≠ cfg.secret
    ∧ resp.POLY_BUILDER_SIGNATURE ≠ cfg.secret
    ∧ resp.POLY_BUILDER_PASSPHRASE ≠ cfg.secret
    ∧ resp.POLY_BUILDER_PASSPHRASE = cfg.passphrase
    ∧ (getBuilderInfo cfg).apiKey ≠ cfg.secret
    ∧ (getBuilderInfo cfg).apiKey ≠ cfg.passphrase := by
  have hresp : resp
      = { POLY_BUILDER_API_KEY := cfg.apiKey
          POLY_BUILDER_SIGNATURE :=
            hmac cfg.secret timestamp (jsToUpper (r.method.getD ""))
              (r.path.getD "") (r.body.getD "")
          POLY_BUILDER_TIMESTAMP := timestamp
          POLY_BUILDER_PASSPHRASE := cfg.passphrase } := by
    unfold builderSign at hok
    split_ifs at hok with h1 h2
    injection hok with h
    exact h.symm
  subst hresp
  exact ⟨hkey, hhmac _ _ _ _ _, hpass, rfl, hkey, hkeyp⟩

/-- Witness for C8 amended at concrete credentials, request and HMAC. -/
theorem signing_no_secret_leak_witness :
    ("k" : String) ≠ "s"
    ∧ ("sig" : String) ≠ "s"
    ∧ ("p" : String) ≠ "s"
    ∧ ("p" : String) = "p"
    ∧ (getBuilderInfo { apiKey := "k", secret := "s", passphrase := "p" }).apiKey ≠ "s"
    ∧ (getBuilderInfo { apiKey := "k", secret := "s", passphrase := "p" }).apiKey ≠ "p" :=
  signing_no_secret_leak
    { apiKey := "k", secret := "s", passphrase := "p" }
    (fun _ _ _ _ _ => "sig") 0 { method := some "GET", path := some "/x" }
    { POLY_BUILDER_API_KEY := "k", POLY_BUILDER_SIGNATURE := "sig",
      POLY_BUILDER_TIMESTAMP := 0, POLY_BUILDER_PASSPHRASE := "p" }
    (by decide) (by decide) (by decide)
    (fun (s : String) (t : Int) (m p b : String) =>
      show ("sig" : String) ≠ "s" by decide) (by rfl)
